import Mathlib

/-
Verification of the Clabcraw session-client skill.

This file gives a shallow embedding, in Lean, of the client core:

  * lib/signer.js            — canonical JSON and EIP-191 message building
  * lib/errors.js            — typed errors and the fromResponse classifier
  * lib/schema.js            — normalizeState, the snapshot normalizer
  * lib/game.js (GameClient) — the retrying request engine, getState,
                               waitForMatch, playUntilDone and claim

JavaScript dynamic values are modelled by the inductive type Jval; the
ambient wall clock, the key material, the network and the chain are passed
in explicitly (a clock value, an abstract signMessage function, an oracle
list of per-attempt outcomes).  Theorems about each claim follow the
definitions.
-/

namespace Clabcraw

/-- Model of a JavaScript JSON value (the values flowing through the
client: parsed response bodies, request payloads, snapshot fields).
JS undefined is collapsed into null, which is adequate here because the
source only ever distinguishes them through truthiness or strict equality
with a non-null literal. -/
inductive Jval where
  | null
  | bool (b : Bool)
  | num (n : Int)
  | str (s : String)
  | arr (elems : List Jval)
  | obj (fields : List (String × Jval))
deriving Repr

/-- JavaScript truthiness of a value (NaN is not modelled; numeric
truthiness is nonzero-ness). -/
def truthy : Jval → Bool
  | .null => false
  | .bool b => b
  | .num n => n != 0
  | .str s => s != ""
  | .arr _ => true
  | .obj _ => true

/-- Property lookup on an object field list; first binding wins. -/
def lookupField : List (String × Jval) → String → Jval
  | [], _ => .null
  | (k, v) :: rest, key => if k == key then v else lookupField rest key

/-- Whether an object field list carries a binding for a key (models the
JS `in` operator on plain objects). -/
def hasField : List (String × Jval) → String → Bool
  | [], _ => false
  | (k, _) :: rest, key => k == key || hasField rest key

/-- Property access `v.key`: null for anything that is not an object with
that key (an absent property reads as undefined, collapsed to null). -/
def jGet (v : Jval) (key : String) : Jval :=
  match v with
  | .obj fs => lookupField fs key
  | _ => .null

/-- The JS idiom `v || d`: the value when truthy, the default otherwise. -/
def jsOr (v d : Jval) : Jval := if truthy v then v else d

/-- Strict equality of a value with a string literal (`v === "s"`). -/
def jsStrEq (v : Jval) (s : String) : Bool :=
  match v with
  | .str t => t == s
  | _ => false

/-- Strict equality with the boolean literal true (`v === true`). -/
def jsIsTrue (v : Jval) : Bool :=
  match v with
  | .bool b => b
  | _ => false

mutual

/-- Compact JSON encoding of a value, as produced by JSON.stringify with
no spacing (string escaping is not modelled; keys and string values in
the signed payloads contain no characters needing escapes). -/
def encodeJval : Jval → String
  | .null => "null"
  | .bool true => "true"
  | .bool false => "false"
  | .num n => toString n
  | .str s => "\"" ++ s ++ "\""
  | .arr xs => "[" ++ encodeElems xs ++ "]"
  | .obj fs => "\x7b" ++ encodeFields fs ++ "\x7d"

/-- Comma-joined encodings of array elements. -/
def encodeElems : List Jval → String
  | [] => ""
  | [x] => encodeJval x
  | x :: y :: xs => encodeJval x ++ "," ++ encodeElems (y :: xs)

/-- Comma-joined `"key":value` encodings of object fields. -/
def encodeFields : List (String × Jval) → String
  | [] => ""
  | [(k, v)] => "\"" ++ k ++ "\":" ++ encodeJval v
  | (k, v) :: y :: xs => "\"" ++ k ++ "\":" ++ encodeJval v ++ "," ++ encodeFields (y :: xs)

end

/-- Rendering of a value used where the source interpolates a possibly
non-string body field into an error message. -/
def displayStr : Jval → String
  | .str s => s
  | v => encodeJval v

/-- The idiom `v || d` for an error-message default: the string form of
the value when truthy, the default string otherwise. -/
def strOr (v : Jval) (d : String) : String :=
  if truthy v then displayStr v else d

/-- ASCII lowercasing, modelling String.prototype.toLowerCase on the
addresses the client compares (hex strings). -/
def lowerStr (s : String) : String := ⟨s.data.map Char.toLower⟩

/-- Character-list lexicographic comparison used to model the key sort in
canonicalize (keys are plain ASCII identifiers, for which localeCompare
agrees with code-unit order). -/
def keyLeAux : List Char → List Char → Bool
  | [], _ => true
  | _ :: _, [] => false
  | a :: as, b :: bs =>
    if a < b then true
    else if b < a then false
    else keyLeAux as bs

/-- Lexicographic string comparison for payload keys. -/
def keyLe (a b : String) : Bool := keyLeAux a.data b.data

theorem keyLeAux_total (a b : List Char) : keyLeAux a b = true ∨ keyLeAux b a = true := by
  induction a generalizing b with
  | nil => left; rfl
  | cons x xs ih =>
    cases b with
    | nil => right; rfl
    | cons y ys =>
      rcases lt_trichotomy x y with h | h | h
      · left; simp [keyLeAux, h]
      · subst h
        rcases ih ys with h2 | h2
        · left; simp [keyLeAux, lt_irrefl, h2]
        · right; simp [keyLeAux, lt_irrefl, h2]
      · right; simp [keyLeAux, h]

theorem keyLeAux_antisymm (a b : List Char) (h1 : keyLeAux a b = true)
    (h2 : keyLeAux b a = true) : a = b := by
  induction a generalizing b with
  | nil =>
    cases b with
    | nil => rfl
    | cons y ys => simp [keyLeAux] at h2
  | cons x xs ih =>
    cases b with
    | nil => simp [keyLeAux] at h1
    | cons y ys =>
      rcases lt_trichotomy x y with h | h | h
      · simp [keyLeAux, h, lt_asymm h] at h2
      · subst h
        simp [keyLeAux, lt_irrefl] at h1 h2
        rw [ih ys h1 h2]
      · simp [keyLeAux, h, lt_asymm h] at h1

theorem keyLeAux_trans (a b c : List Char) (h1 : keyLeAux a b = true)
    (h2 : keyLeAux b c = true) : keyLeAux a c = true := by
  induction a generalizing b c with
  | nil => rfl
  | cons x xs ih =>
    cases b with
    | nil => simp [keyLeAux] at h1
    | cons y ys =>
      cases c with
      | nil => simp [keyLeAux] at h2
      | cons z zs =>
        rcases lt_trichotomy x y with hxy | hxy | hxy
        · rcases lt_trichotomy y z with hyz | hyz | hyz
          · simp [keyLeAux, lt_trans hxy hyz]
          · subst hyz; simp [keyLeAux, hxy]
          · simp [keyLeAux, hyz, lt_asymm hyz] at h2
        · subst hxy
          rcases lt_trichotomy x z with hxz | hxz | hxz
          · simp [keyLeAux, hxz]
          · subst hxz
            simp [keyLeAux, lt_irrefl] at h1 h2 ⊢
            exact ih ys zs h1 h2
          · simp [keyLeAux, hxz, lt_asymm hxz] at h2
        · simp [keyLeAux, hxy, lt_asymm hxy] at h1

theorem keyLe_antisymm (a b : String) (h1 : keyLe a b = true) (h2 : keyLe b a = true) :
    a = b := by
  cases a; cases b
  exact congrArg String.mk (keyLeAux_antisymm _ _ h1 h2)

/-- Order on payload entries: compare keys lexicographically (the
comparator passed to sort in canonicalize). -/
def entryLe (a b : String × Jval) : Prop := keyLe a.1 b.1 = true

instance : DecidableRel entryLe := fun a b => by
  unfold entryLe; infer_instance

instance : IsTotal (String × Jval) entryLe :=
  ⟨fun a b => keyLeAux_total a.1.data b.1.data⟩

instance : IsTrans (String × Jval) entryLe :=
  ⟨fun a b c => keyLeAux_trans a.1.data b.1.data c.1.data⟩

/-- Payload entries sorted by key, modelling
Object.entries(obj).sort(localeCompare on keys). -/
def sortEntries (obj : List (String × Jval)) : List (String × Jval) :=
  List.insertionSort entryLe obj

/-- Canonical JSON of a payload object: keys sorted, compact encoding
(lib/signer.js canonicalize). -/
def canonicalize (obj : List (String × Jval)) : String :=
  encodeJval (.obj (sortEntries obj))

/-- The signed message `"gameId:canonicalJson:timestamp"`
(lib/signer.js buildMessage). -/
def buildMessage (gameId : String) (payload : List (String × Jval)) (timestamp : String) :
    String :=
  gameId ++ ":" ++ canonicalize payload ++ ":" ++ timestamp

/-- EIP-191 action signing, with the account abstracted as its
signMessage function (signAction in lib/signer.js). -/
def signAction (signMessage : String → String) (gameId : String)
    (actionBody : List (String × Jval)) (timestamp : String) : String :=
  signMessage (buildMessage gameId actionBody timestamp)

/-- State-read signing: signAction on the fixed payload
`{action: "state"}` (signState in lib/signer.js). -/
def signState (signMessage : String → String) (gameId : String) (timestamp : String) :
    String :=
  signAction signMessage gameId [("action", .str "state")] timestamp

/-- A typed client error: machine-readable code, retriability, retry
delay and message (the data content of ClabcrawError in lib/errors.js;
the context payload is dropped as no claim reads it). -/
structure ClabcrawErr where
  code : String
  retriable : Bool
  retryAfterMs : Nat
  message : String
deriving Repr, DecidableEq

/-- ClabcrawError construction with its constructor defaults
retriable = false and retryAfterMs = 5000. -/
def clabcrawError (message code : String) : ClabcrawErr :=
  { code := code, retriable := false, retryAfterMs := 5000, message := message }

/-- PausedError: code PAUSED, always retriable (lib/errors.js lines
42 to 47; the 30000 ms default applies only when no retryAfterMs is
passed). -/
def pausedError (message : String) (retryAfterMs : Nat) : ClabcrawErr :=
  { code := "PAUSED", retriable := true, retryAfterMs := retryAfterMs, message := message }

/-- PausedError built with no explicit retryAfterMs, taking the
constructor default of 30000 ms (as in waitForMatch). -/
def pausedErrorDefault (message : String) : ClabcrawErr :=
  pausedError message 30000

/-- InsufficientFundsError: INSUFFICIENT_FUNDS, not retriable. -/
def insufficientFundsError (message : String) : ClabcrawErr :=
  { code := "INSUFFICIENT_FUNDS", retriable := false, retryAfterMs := 5000, message := message }

/-- InvalidActionError: INVALID_ACTION, not retriable. -/
def invalidActionError (message : String) : ClabcrawErr :=
  { code := "INVALID_ACTION", retriable := false, retryAfterMs := 5000, message := message }

/-- GameNotFoundError: GAME_NOT_FOUND, not retriable, message carries the
game id. -/
def gameNotFoundError (gameId : String) : ClabcrawErr :=
  { code := "GAME_NOT_FOUND", retriable := false, retryAfterMs := 5000
  , message := "Game not found: " ++ gameId }

/-- NetworkError: NETWORK_ERROR, retriable, 3000 ms default delay. -/
def networkError (message : String) : ClabcrawErr :=
  { code := "NETWORK_ERROR", retriable := true, retryAfterMs := 3000, message := message }

/-- AuthError: AUTH_ERROR, not retriable. -/
def authError (message : String) : ClabcrawErr :=
  { code := "AUTH_ERROR", retriable := false, retryAfterMs := 5000, message := message }

/-- The retry-after response header, pre-parsed: absent, an integer
number of seconds, an HTTP-date at a signed millisecond offset from now,
or unparseable text. -/
inductive RetryHeader where
  | absent
  | seconds (n : Nat)
  | httpDate (deltaMsFromNow : Int)
  | malformed
deriving Repr, DecidableEq

/-- parseRetryAfter in lib/errors.js: 5000 ms when the header is absent
or unparseable, seconds times 1000 for an integer value, the clamped
delta to now for an HTTP-date. -/
def parseRetryAfter : RetryHeader → Nat
  | .absent => 5000
  | .seconds n => n * 1000
  | .httpDate d => (max 0 d).toNat
  | .malformed => 5000

/-- fromResponse in lib/errors.js: map an HTTP response (status, parsed
JSON body or none when parsing failed, status text, retry-after header)
to a typed error.  Statuses 401, 402, 404, 422 and 503 map to their
error classes; everything else maps to HTTP_ERROR, retriable exactly for
the 5xx range. -/
def fromResponse (status : Nat) (jsonBody : Option Jval) (statusText : String)
    (header : RetryHeader) (gameId : Option String) : ClabcrawErr :=
  let body := jsonBody.getD (Jval.obj [("error", .str statusText)])
  let retryAfterMs := parseRetryAfter header
  if status = 401 then authError (strOr (jGet body "error") "Unauthorized")
  else if status = 402 then insufficientFundsError (strOr (jGet body "error") "Payment required")
  else if status = 404 then gameNotFoundError (gameId.getD "unknown")
  else if status = 422 then invalidActionError (strOr (jGet body "error") "Invalid action")
  else if status = 503 then
    pausedError
      (strOr (jGet body "message")
        (strOr (jGet body "error") "Platform is paused for maintenance"))
      retryAfterMs
  else
    { code := "HTTP_ERROR", retriable := decide (500 ≤ status), retryAfterMs := retryAfterMs
    , message := strOr (jGet body "error") ("Unexpected HTTP " ++ toString status) }

/-- Retry budget of the request engine (lib/game.js MAX_RETRIES). -/
def MAX_RETRIES : Nat := 3

/-- Base backoff delay in milliseconds (lib/game.js BACKOFF_BASE_MS). -/
def BACKOFF_BASE_MS : Nat := 500

/-- Exponential backoff capped at 10000 ms (lib/game.js backoff). -/
def backoff (attempt : Nat) : Nat :=
  min (BACKOFF_BASE_MS * 2 ^ attempt) 10000

/-- The signed-request headers sent with one HTTP attempt; all none for
unsigned calls (x-signature, x-timestamp, x-signer). -/
structure SignHeaders where
  signature : Option String
  timestamp : Option String
  signer : Option String
deriving Repr, DecidableEq

/-- What the network does to one attempt of the request loop: the fetch
call throws (connection fault with its cause text), or returns 304, a
2xx body, or an error response to be classified. -/
inductive Outcome where
  | connFail (cause : String)
  | http304
  | httpOk (data : Jval)
  | httpErr (status : Nat) (jsonBody : Option Jval) (statusText : String) (header : RetryHeader)
deriving Repr

/-- Result of one engine execution. -/
inductive ReqResult where
  | ok (data : Jval)
  | unchanged
  | raised (e : ClabcrawErr)
  | oracleExhausted
deriving Repr

/-- Observable trace of one engine execution: its result, the headers
sent with each attempt (in order), and the sleeps performed between
attempts (in order, in milliseconds). -/
structure ReqTrace where
  result : ReqResult
  sent : List SignHeaders
  sleeps : List Nat
deriving Repr

/-- The retry loop body of GameClient._request, driven by an oracle list
giving the outcome of each successive attempt.  Headers are fixed before
the loop, exactly as in the source, where init is built once and reused
by every fetch call.  oracleExhausted marks runs where the oracle list
is shorter than the attempts the code would make (a model artifact, not
a program behavior). -/
def requestGo (gameId : Option String) (hdrs : SignHeaders) (attempt : Nat) :
    List Outcome → ReqTrace
  | [] => { result := .oracleExhausted, sent := [], sleeps := [] }
  | o :: rest =>
    match o with
    | .connFail cause =>
      if attempt < MAX_RETRIES then
        let t := requestGo gameId hdrs (attempt + 1) rest
        { result := t.result, sent := hdrs :: t.sent, sleeps := backoff attempt :: t.sleeps }
      else
        { result := .raised (networkError ("Network error: " ++ cause))
        , sent := [hdrs], sleeps := [] }
    | .http304 => { result := .unchanged, sent := [hdrs], sleeps := [] }
    | .httpOk d => { result := .ok d, sent := [hdrs], sleeps := [] }
    | .httpErr status body statusText header =>
      let e := fromResponse status body statusText header gameId
      if e.retriable = true ∧ attempt < MAX_RETRIES then
        let t := requestGo gameId hdrs (attempt + 1) rest
        { result := t.result, sent := hdrs :: t.sent
        , sleeps := (if e.retryAfterMs ≠ 0 then e.retryAfterMs else backoff attempt) :: t.sleeps }
      else
        { result := .raised e, sent := [hdrs], sleeps := [] }

/-- GameClient._request: one engine execution starting at attempt 0.
Method, path and body do not influence the retry logic and are carried
only for shape. -/
def request (method path : String) (body : Option Jval) (hdrs : SignHeaders)
    (gameId : Option String) (oracle : List Outcome) : ReqTrace :=
  let _ := (method, path, body)
  requestGo gameId hdrs 0 oracle

/-- The header triple a signed call builds before entering the request
loop: timestamp is floor(nowMs / 1000) as a string; the signature signs
gameId, the canonical payload and that timestamp. -/
def signedHeaders (signMessage : String → String) (selfAddr : String) (nowMs : Nat)
    (gameId : String) (payload : List (String × Jval)) : SignHeaders :=
  let timestamp := toString (nowMs / 1000)
  { signature := some (signAction signMessage gameId payload timestamp)
  , timestamp := some timestamp
  , signer := some selfAddr }

/-- GameClient.getState up to normalization: timestamp and signature are
computed once from the wall clock at call time (nowMs), then the request
loop runs with those fixed headers. -/
def getState (signMessage : String → String) (selfAddr : String) (nowMs : Nat)
    (gameId : String) (oracle : List Outcome) : ReqTrace :=
  request "GET" ("/v1/games/" ++ gameId ++ "/state") none
    (signedHeaders signMessage selfAddr nowMs gameId [("action", .str "state")])
    (some gameId) oracle

/-- GameClient.submitAction up to normalization: same single signing
before the retry loop, with the action body as payload. -/
def submitAction (signMessage : String → String) (selfAddr : String) (nowMs : Nat)
    (gameId : String) (actionBody : List (String × Jval)) (oracle : List Outcome) : ReqTrace :=
  request "POST" ("/v1/games/" ++ gameId ++ "/action") (some (.obj actionBody))
    (signedHeaders signMessage selfAddr nowMs gameId actionBody)
    (some gameId) oracle

/-- The view getStatus builds from the status response body: status
string value, active_games list (defaulted to empty), message value. -/
structure StatusView where
  status : Jval
  activeGames : List Jval
  message : Jval
deriving Repr

/-- Result of waitForMatch. -/
inductive WaitOutcome where
  | matched (gameId : Jval)
  | failed (e : ClabcrawErr)
  | oracleExhausted
deriving Repr

/-- Observable trace of a waitForMatch run: its outcome and the
wall-clock instant of every status poll it issued, in order. -/
structure WaitTrace where
  outcome : WaitOutcome
  pollTimes : List Nat
deriving Repr

/-- The MATCH_TIMEOUT error raised when the deadline elapses. -/
def matchTimeoutError : ClabcrawErr :=
  { code := "MATCH_TIMEOUT", retriable := false, retryAfterMs := 5000
  , message := "Timed out waiting for match" }

/-- The QUEUE_CANCELLED error raised when status turns idle. -/
def queueCancelledError : ClabcrawErr :=
  { code := "QUEUE_CANCELLED", retriable := false, retryAfterMs := 5000
  , message := "Queue was cancelled — no longer queued" }

/-- The polling loop of GameClient.waitForMatch.  The oracle pairs each
successive status response with the milliseconds the getStatus round
trip consumed; between iterations the loop sleeps pollMs.  The deadline
comparison Date.now() < deadline happens before each poll. -/
def waitForMatchGo (deadline pollMs now : Nat) (obs : List (StatusView × Nat)) : WaitTrace :=
  match obs with
  | [] =>
    if now < deadline then { outcome := .oracleExhausted, pollTimes := [] }
    else { outcome := .failed matchTimeoutError, pollTimes := [] }
  | (r, dt) :: rest =>
    if now < deadline then
      if jsStrEq r.status "active" ∧ 0 < r.activeGames.length then
        { outcome := .matched (jGet (r.activeGames.headD .null) "game_id")
        , pollTimes := [now] }
      else if jsStrEq r.status "idle" then
        { outcome := .failed queueCancelledError, pollTimes := [now] }
      else if jsStrEq r.status "paused" then
        { outcome := .failed
            (pausedErrorDefault
              (strOr r.message
                "Platform is paused for emergency maintenance — retry after the pause lifts"))
        , pollTimes := [now] }
      else
        let t := waitForMatchGo deadline pollMs (now + dt + pollMs) rest
        { outcome := t.outcome, pollTimes := now :: t.pollTimes }
    else
      { outcome := .failed matchTimeoutError, pollTimes := [] }

/-- GameClient.waitForMatch: fixes the deadline at now + timeoutMs and
runs the polling loop. -/
def waitForMatch (timeoutMs pollMs now : Nat) (obs : List (StatusView × Nat)) : WaitTrace :=
  waitForMatchGo (now + timeoutMs) pollMs now obs

/-- Result of GameClient.claim. -/
inductive ClaimOutcome where
  | ok (txHash : String) (amount : Nat)
  | failed (e : ClabcrawErr)
deriving Repr, DecidableEq

/-- Observable trace of a claim run: its outcome and how many withdrawal
transactions were submitted. -/
structure ClaimTrace where
  outcome : ClaimOutcome
  writes : Nat
deriving Repr, DecidableEq

/-- The NOTHING_TO_CLAIM error claim raises on a zero balance
(retriable is passed explicitly as false in the source). -/
def nothingToClaimError : ClabcrawErr :=
  { code := "NOTHING_TO_CLAIM", retriable := false, retryAfterMs := 5000
  , message := "No claimable balance" }

/-- The error claim raises when the receipt reports failure: a plain
ClabcrawError with code CLAIM_FAILED and no retriable override, so the
constructor default retriable = false applies. -/
def claimFailedError : ClabcrawErr :=
  clabcrawError "Claim transaction reverted" "CLAIM_FAILED"

/-- GameClient.claim: read the claimable balance (uint256, modelled as
Nat), fail with NOTHING_TO_CLAIM on zero without writing; otherwise
submit exactly one withdrawal and fail with the CLAIM_FAILED error when
the awaited receipt status is anything but success. -/
def claim (balance : Nat) (receiptStatus : String) (txHash : String) : ClaimTrace :=
  if balance = 0 then
    { outcome := .failed nothingToClaimError, writes := 0 }
  else if receiptStatus != "success" then
    { outcome := .failed claimFailedError, writes := 1 }
  else
    { outcome := .ok txHash balance, writes := 1 }

/-- Whether a value has JS typeof object when combined with a truthiness
guard (arrays included; the null case is excluded by the guard in
normalizeState). -/
def isJsObject : Jval → Bool
  | .obj _ => true
  | .arr _ => true
  | _ => false

/-- The unknown-card placeholder returned by parseCard. -/
def unknownCard : Jval :=
  .obj [("rank", .str "?"), ("suit", .str "?")]

/-- parseCard in lib/schema.js: an object with a truthy rank passes
through; a string of length at least 2 splits into rank (with the
two-character prefix 10 handled) and suit; everything else becomes the
unknown card. -/
def parseCard (card : Jval) : Jval :=
  match card with
  | .obj fs => if truthy (lookupField fs "rank") then card else unknownCard
  | .str s =>
    match s.data with
    | [] => unknownCard
    | [_] => unknownCard
    | c1 :: c2 :: rest =>
      if c1 = '1' ∧ c2 = '0' then
        .obj [("rank", .str "10"), ("suit", .str ⟨rest⟩)]
      else
        .obj [("rank", .str ⟨[c1]⟩), ("suit", .str ⟨c2 :: rest⟩)]
  | _ => unknownCard

/-- Evaluation of `(v || []).map(parseCard)`: empty list when the field
is falsy, the mapped list for an array, and a TypeError for any other
truthy value, since only arrays have a map method. -/
def jsMapCards (fieldName : String) (v : Jval) : Except String (List Jval) :=
  if truthy v then
    match v with
    | .arr xs => .ok (xs.map parseCard)
    | _ => .error ("TypeError: " ++ fieldName ++ ".map is not a function")
  else .ok []

/-- The five action names normalizeActions iterates over. -/
def allActionNames : List String := ["fold", "check", "call", "raise", "all_in"]

/-- Fields spread from one action entry (`...validActions[name]`):
object fields merge, any other value spreads to nothing. -/
def spreadFields : Jval → List (String × Jval)
  | .obj fs => fs
  | _ => []

/-- normalizeActions in lib/schema.js.  `name in (validActions || {})`
throws a TypeError when valid_actions is a truthy primitive; an array
has no own property named after any action, so every action comes out
unavailable; for an object each listed action is available with its
fields spread in. -/
def normalizeActions (validActions : Jval) : Except String (List (String × Jval)) :=
  if truthy validActions then
    match validActions with
    | .obj fs =>
      .ok (allActionNames.map (fun name =>
        if hasField fs name then
          (name, Jval.obj (("available", .bool true) :: spreadFields (lookupField fs name)))
        else
          (name, Jval.obj [("available", .bool false)])))
    | .arr _ =>
      .ok (allActionNames.map (fun name => (name, Jval.obj [("available", .bool false)])))
    | _ => .error "TypeError: cannot use in operator on a primitive"
  else
    .ok (allActionNames.map (fun name => (name, Jval.obj [("available", .bool false)])))

/-- The ternary `raw.opponent_cards ? raw.opponent_cards.map(parseCard)
: null`: none for a falsy field, the mapped list for an array, and the
TypeError for any other truthy value. -/
def jsOptCards (v : Jval) : Except String (Option (List Jval)) :=
  if truthy v then (jsMapCards "opponent_cards" v).map some else .ok none

/-- Math.min over two JS values as used for effectiveStack; non-numeric
operands would give NaN, modelled as null. -/
def jsMathMin (a b : Jval) : Jval :=
  match a, b with
  | .num x, .num y => .num (min x y)
  | _, _ => .null

/-- A normalized snapshot (NormalizedState in lib/schema.js) for the
non-sentinel case.  Fields that JS leaves dynamic stay Jval.  The
potOdds getter is omitted: it is floating-point division and no claim
reads it.  moveDeadlineMs is the parsed deadline minus now. -/
structure NormState where
  gameId : Jval
  handNumber : Jval
  isYourTurn : Bool
  isFinished : Bool
  unchanged : Bool
  street : Jval
  hole : List Jval
  board : List Jval
  pot : Jval
  yourStack : Jval
  opponentStack : Jval
  moveDeadlineMs : Option Int
  actions : List (String × Jval)
  effectiveStack : Jval
  result : Jval
  outcome : Jval
  opponentCards : Option (List Jval)
  winningHand : Jval
  raw : Jval
deriving Repr

/-- What normalizeState returns: the `{ unchanged: true, raw }` sentinel
or a full snapshot. -/
inductive NormResult where
  | unchangedSentinel (raw : Jval)
  | snapshot (s : NormState)
deriving Repr

/-- normalizeState in lib/schema.js.  dateMs abstracts
`new Date(v).getTime()` (never throws) and nowMs is Date.now().  A
TypeError the JS would raise surfaces as Except.error. -/
def normalizeState (dateMs : Jval → Int) (nowMs : Int) (raw : Jval) :
    Except String NormResult :=
  if ¬ (truthy raw = true ∧ isJsObject raw = true) then .ok (.unchangedSentinel raw)
  else if truthy (jGet raw "unchanged") then .ok (.unchangedSentinel raw)
  else do
    let hole ← jsMapCards "your_cards" (jGet raw "your_cards")
    let board ← jsMapCards "community_cards" (jGet raw "community_cards")
    let moveDeadlineMs :=
      if truthy (jGet raw "move_deadline") then
        some (dateMs (jGet raw "move_deadline") - nowMs)
      else none
    let actions ← normalizeActions (jGet raw "valid_actions")
    let opponentCards ← jsOptCards (jGet raw "opponent_cards")
    .ok (.snapshot
      { gameId := jsOr (jGet raw "game_id") .null
      , handNumber := jsOr (jGet raw "hand_number") (.num 1)
      , isYourTurn := jsIsTrue (jGet raw "is_your_turn")
      , isFinished :=
          jsStrEq (jGet raw "game_status") "finished"
            || jsStrEq (jGet raw "game_status") "complete"
      , unchanged := false
      , street := jsOr (jGet raw "current_street") (.str "preflop")
      , hole := hole
      , board := board
      , pot := jsOr (jGet raw "pot") (.num 0)
      , yourStack := jsOr (jGet raw "your_stack") (.num 0)
      , opponentStack := jsOr (jGet raw "opponent_stack") (.num 0)
      , moveDeadlineMs := moveDeadlineMs
      , actions := actions
      , effectiveStack :=
          jsMathMin (jsOr (jGet raw "your_stack") (.num 0))
            (jsOr (jGet raw "opponent_stack") (.num 0))
      , result := jsOr (jGet raw "result") .null
      , outcome := jsOr (jGet raw "outcome") .null
      , opponentCards := opponentCards
      , winningHand := jsOr (jGet raw "winning_hand") .null
      , raw := raw })

/-- The historical result record fetched by getResult in the stale-finish
path.  winner is the winner address when present as a string (a
non-string winner would not reach the comparison in practice); the stack
fields stay raw values. -/
structure GameResultR where
  winner : Option String
  outcome : Option String
  winner_stack : Option Jval
  loser_stack : Option Jval
deriving Repr

/-- The synthetic finished state playUntilDone returns after a
stale-finish (the object literal in the GAME_NOT_FOUND catch branch). -/
structure SyntheticFinal where
  isFinished : Bool
  result : String
  outcome : String
  yourStack : Option Jval
  opponentStack : Option Jval
deriving Repr

/-- Build the synthetic finished state from the historical result (none
when the getResult fallback itself failed and was caught to null):
youWon compares the lowercased winner with the lowercased own address,
draw takes precedence, and a missing record degrades to unknown. -/
def synthesizeFinal (selfAddr : String) (result : Option GameResultR) : SyntheticFinal :=
  let youWon :=
    match result with
    | some r =>
      match r.winner with
      | some w => lowerStr w == lowerStr selfAddr
      | none => false
    | none => false
  let isDraw :=
    match result with
    | some r => r.outcome == some "draw"
    | none => false
  { isFinished := true
  , result :=
      if isDraw then "draw"
      else match result with
        | some _ => if youWon then "win" else "loss"
        | none => "unknown"
  , outcome :=
      match result with
      | some r => (r.outcome.map (fun s => if s == "" then "unknown" else s)).getD "unknown"
      | none => "unknown"
  , yourStack :=
      if youWon then result.bind (fun r => r.winner_stack)
      else result.bind (fun r => r.loser_stack)
  , opponentStack :=
      if youWon then result.bind (fun r => r.loser_stack)
      else result.bind (fun r => r.winner_stack) }

/-- One observed iteration of the play loop: what this.getState(gameId)
did — returned a normalized value, or threw a typed error. -/
inductive PollStep where
  | state (r : NormResult)
  | raise (e : ClabcrawErr)

/-- Result of a playUntilDone run. -/
inductive PlayOutcome where
  | final (s : NormState)
  | synthetic (s : SyntheticFinal)
  | raised (e : ClabcrawErr)
  | oracleExhausted

/-- Observable trace of a playUntilDone run: its outcome and the action
bodies submitted along the way, in order. -/
structure PlayTrace where
  outcome : PlayOutcome
  submits : List (List (String × Jval))

/-- GameClient.playUntilDone over an oracle of getState observations.
resultFetch is what `getResult(gameId).catch(() => null)` would yield in
the stale-finish branch.  A getState error with code GAME_NOT_FOUND is
absorbed: the loop returns the synthetic finished state instead of
propagating; any other error propagates.  An unchanged read sleeps and
loops; a finished snapshot returns; otherwise the handler runs and a
non-null action is submitted (submitAction is modelled as succeeding,
its returned state being discarded exactly as in the source). -/
def playUntilDone (selfAddr : String) (resultFetch : Option GameResultR)
    (handler : NormState → Option (List (String × Jval))) :
    List PollStep → PlayTrace
  | [] => { outcome := .oracleExhausted, submits := [] }
  | .raise e :: _ =>
    if e.code = "GAME_NOT_FOUND" then
      { outcome := .synthetic (synthesizeFinal selfAddr resultFetch), submits := [] }
    else
      { outcome := .raised e, submits := [] }
  | .state (.unchangedSentinel _) :: rest =>
    playUntilDone selfAddr resultFetch handler rest
  | .state (.snapshot s) :: rest =>
    if s.isFinished = true then
      { outcome := .final s, submits := [] }
    else
      match handler s with
      | some a =>
        let t := playUntilDone selfAddr resultFetch handler rest
        { outcome := t.outcome, submits := a :: t.submits }
      | none => playUntilDone selfAddr resultFetch handler rest

/-- C1: the claim says a 503 without the explicit transient flag
classifies as a paused error with retriable = false and a 30 second
default retryAfter, and a flagged 503 as retriable = true.  The
classifier in lib/errors.js ignores the body entirely for 503: every
503 yields code PAUSED with retriable = true, and with no retry-after
header the delay defaults to 5000 ms, not 30000 ms.  This theorem
evaluates the code on arbitrary 503 responses, exhibiting the
divergence (the repository's own tests expect retriable = false for an
unflagged 503). -/
theorem c1_fromResponse_503_always_retriable_default_5000
    (body : Option Jval) (statusText : String) (header : RetryHeader)
    (gameId : Option String) :
    (fromResponse 503 body statusText header gameId).code = "PAUSED"
    ∧ (fromResponse 503 body statusText header gameId).retriable = true
    ∧ (fromResponse 503 body statusText RetryHeader.absent gameId).retryAfterMs = 5000 := by
  refine ⟨?_, ?_, ?_⟩ <;>
    simp [fromResponse, pausedError, parseRetryAfter]

/-- C5: the claim says a 400 with an alternatives list classifies as
RESOURCE_DISABLED carrying the list, and any other 400 as BAD_REQUEST,
both non-retriable.  The classifier in lib/errors.js has no 400 case at
all: every 400 falls to the default branch and yields code HTTP_ERROR
(non-retriable since 400 < 500), whether or not the body carries an
available_games list.  The repository's own tests expect GAME_DISABLED
and BAD_REQUEST here. -/
theorem c5_fromResponse_400_is_generic_http_error
    (body : Option Jval) (statusText : String) (header : RetryHeader)
    (gameId : Option String) :
    (fromResponse 400 body statusText header gameId).code = "HTTP_ERROR"
    ∧ (fromResponse 400 body statusText header gameId).retriable = false := by
  refine ⟨?_, ?_⟩ <;>
    simp [fromResponse, authError, insufficientFundsError, gameNotFoundError,
      invalidActionError, pausedError]

/-- C7 counterexample: the claim calls the confirmation-failure error
retriable.  Running claim with a nonzero balance and a reverted receipt
produces the CLAIM_FAILED error whose retriable field is false (the
source constructs it without a retriable override, so the ClabcrawError
default false applies), refuting the claim at this input. -/
theorem c7_counterexample_revert_error_not_retriable :
    claim 1000000 "reverted" "0xabc"
      = { outcome := .failed claimFailedError, writes := 1 }
    ∧ claimFailedError.code = "CLAIM_FAILED"
    ∧ claimFailedError.retriable = false :=
  ⟨rfl, rfl, rfl⟩

/-- C7 amended: claim reads the balance first; a zero balance fails with
non-retriable NOTHING_TO_CLAIM and zero withdrawal submissions; a
nonzero balance submits exactly one withdrawal and fails with the
CLAIM_FAILED error (non-retriable, unlike the claim's wording) exactly
when the receipt status is not success. -/
theorem c7_claim_check_then_act (balance : Nat) (receiptStatus txHash : String) :
    (balance = 0 →
      claim balance receiptStatus txHash
        = { outcome := .failed nothingToClaimError, writes := 0 }
      ∧ nothingToClaimError.retriable = false
      ∧ nothingToClaimError.code = "NOTHING_TO_CLAIM")
    ∧ (balance ≠ 0 →
      (claim balance receiptStatus txHash).writes = 1
      ∧ ((claim balance receiptStatus txHash).outcome = .failed claimFailedError
          ↔ receiptStatus ≠ "success")) := by
  constructor
  · intro h
    subst h
    exact ⟨rfl, rfl, rfl⟩
  · intro h
    unfold claim
    rw [if_neg h]
    by_cases hs : receiptStatus = "success"
    · subst hs
      simp [claimFailedError, nothingToClaimError]
    · simp [bne_iff_ne, hs]

/-- C7 witness: the theorem applied at a zero balance and at a nonzero
balance with a reverted receipt. -/
theorem c7_claim_check_then_act_witness :
    claim 0 "success" "0x1" = { outcome := .failed nothingToClaimError, writes := 0 }
    ∧ (claim 5 "reverted" "0x2").writes = 1
    ∧ (claim 5 "reverted" "0x2").outcome = .failed claimFailedError := by
  refine ⟨((c7_claim_check_then_act 0 "success" "0x1").1 rfl).1, ?_, ?_⟩
  · exact ((c7_claim_check_then_act 5 "reverted" "0x2").2 (by decide)).1
  · exact ((c7_claim_check_then_act 5 "reverted" "0x2").2 (by decide)).2.mpr (by decide)

/-- C2: the claim says every attempt of a signed call, retries included,
signs wall-clock now at its own send time, so no signature/timestamp
pair recurs across attempts.  In the source, getState computes the
timestamp and signature once before calling the request engine, and the
engine reuses the same init object for every fetch.  This theorem
evaluates the code on a run whose first attempt hits a connection fault
and whose second succeeds: both attempts send the identical header
triple derived from the clock at call start, refuting the claim (the
second attempt is sent only after the backoff sleep, yet carries the
original timestamp and signature). -/
theorem c2_getState_reuses_signature_across_attempts
    (signMessage : String → String) (selfAddr : String) (nowMs : Nat)
    (gameId : String) (cause : String) (d : Jval) :
    (getState signMessage selfAddr nowMs gameId [.connFail cause, .httpOk d]).sent
      = [signedHeaders signMessage selfAddr nowMs gameId [("action", .str "state")],
         signedHeaders signMessage selfAddr nowMs gameId [("action", .str "state")]]
    ∧ (getState signMessage selfAddr nowMs gameId [.connFail cause, .httpOk d]).result
      = .ok d
    ∧ (signedHeaders signMessage selfAddr nowMs gameId [("action", .str "state")]).timestamp
      = some (toString (nowMs / 1000)) :=
  ⟨rfl, rfl, rfl⟩

/-- Attempts consumed by one engine run are bounded by the remaining
budget: at most MAX_RETRIES - attempt + 1 further fetches happen. -/
theorem requestGo_sent_length_le (gid : Option String) (h : SignHeaders) :
    ∀ (oracle : List Outcome) (attempt : Nat),
      (requestGo gid h attempt oracle).sent.length ≤ MAX_RETRIES - attempt + 1 := by
  intro oracle
  induction oracle with
  | nil => intro a; simp [requestGo]
  | cons o rest ih =>
    intro a
    cases o with
    | connFail cause =>
      by_cases ha : a < MAX_RETRIES
      · have hrec := ih (a + 1)
        simp only [requestGo, if_pos ha, List.length_cons]
        unfold MAX_RETRIES at ha hrec ⊢
        omega
      · simp [requestGo, ha]
    | http304 => simp [requestGo]
    | httpOk d => simp [requestGo]
    | httpErr s b st hd =>
      by_cases hc : (fromResponse s b st hd gid).retriable = true ∧ a < MAX_RETRIES
      · have hrec := ih (a + 1)
        simp only [requestGo, if_pos hc, List.length_cons]
        unfold MAX_RETRIES at hc hrec ⊢
        omega
      · simp [requestGo, hc]

/-- C3: the request engine makes at most MAX_RETRIES + 1 = 4 attempts in
any run; three consecutive connection faults followed by a success
produce the success on the fourth attempt; a non-retriable classified
error raises immediately with exactly one attempt consumed whatever the
remaining budget; and on the final attempt both a connection fault and
any classified error raise to the caller. -/
theorem c3_request_retry_budget :
    (∀ (gid : Option String) (h : SignHeaders) (oracle : List Outcome),
        (requestGo gid h 0 oracle).sent.length ≤ MAX_RETRIES + 1)
    ∧ (∀ (gid : Option String) (h : SignHeaders) (c1 c2 c3 : String) (d : Jval)
          (rest : List Outcome),
        (requestGo gid h 0
            (.connFail c1 :: .connFail c2 :: .connFail c3 :: .httpOk d :: rest)).result
          = .ok d
        ∧ (requestGo gid h 0
            (.connFail c1 :: .connFail c2 :: .connFail c3 :: .httpOk d :: rest)).sent.length
          = 4)
    ∧ (∀ (gid : Option String) (h : SignHeaders) (attempt : Nat) (s : Nat)
          (b : Option Jval) (st : String) (hd : RetryHeader) (rest : List Outcome),
        (fromResponse s b st hd gid).retriable = false →
        requestGo gid h attempt (.httpErr s b st hd :: rest)
          = { result := .raised (fromResponse s b st hd gid), sent := [h], sleeps := [] })
    ∧ (∀ (gid : Option String) (h : SignHeaders) (cause : String) (rest : List Outcome),
        requestGo gid h MAX_RETRIES (.connFail cause :: rest)
          = { result := .raised (networkError ("Network error: " ++ cause))
            , sent := [h], sleeps := [] })
    ∧ (∀ (gid : Option String) (h : SignHeaders) (s : Nat) (b : Option Jval)
          (st : String) (hd : RetryHeader) (rest : List Outcome),
        requestGo gid h MAX_RETRIES (.httpErr s b st hd :: rest)
          = { result := .raised (fromResponse s b st hd gid), sent := [h], sleeps := [] }) := by
  refine ⟨?_, ?_, ?_, ?_, ?_⟩
  · intro gid h oracle
    simpa using requestGo_sent_length_le gid h oracle 0
  · intro gid h c1 c2 c3 d rest
    exact ⟨rfl, rfl⟩
  · intro gid h attempt s b st hd rest hret
    simp [requestGo, hret]
  · intro gid h cause rest
    simp [requestGo]
  · intro gid h s b st hd rest
    simp [requestGo]

/-- C3 witness: the non-retriable branch applied to a concrete 422
response at attempt 0 with budget remaining. -/
theorem c3_request_retry_budget_witness :
    (fromResponse 422 none "Unprocessable" RetryHeader.absent none).retriable = false
    ∧ requestGo none ⟨none, none, none⟩ 0 [.httpErr 422 none "Unprocessable" RetryHeader.absent]
      = { result := .raised (fromResponse 422 none "Unprocessable" RetryHeader.absent none)
        , sent := [⟨none, none, none⟩], sleeps := [] } :=
  ⟨rfl,
   c3_request_retry_budget.2.2.1 none ⟨none, none, none⟩ 0 422 none "Unprocessable"
     RetryHeader.absent [] rfl⟩

/-- C8 counterexample: the claim says every retry sleeps at least the
exponential term base times 2 to the attempt.  A retriable 503 whose
retry-after header is an HTTP-date 100 ms away makes the engine sleep
exactly 100 ms on the first retry, which is below the exponential term
500 of attempt 0, refuting the claim: the source sleeps
retryAfterMs when it is nonzero, never a maximum. -/
theorem c8_counterexample_sleep_below_backoff :
    (requestGo none ⟨none, none, none⟩ 0
        [.httpErr 503 (some (.obj [])) "Service Unavailable" (.httpDate 100),
         .httpOk .null]).sleeps
      = [100]
    ∧ ¬ (BACKOFF_BASE_MS * 2 ^ 0 ≤ 100) :=
  ⟨rfl, by decide⟩

/-- C8 amended: before a retry the engine sleeps the classified
retryAfter when it is nonzero and otherwise the capped exponential
min(base times 2 to the attempt, 10000); a connection-fault retry always
sleeps the capped exponential.  No maximum of the two is taken. -/
theorem c8_retry_sleep_is_retryAfter_else_backoff (gid : Option String) (h : SignHeaders)
    (attempt : Nat) (s : Nat) (b : Option Jval) (st : String) (hd : RetryHeader)
    (rest : List Outcome) (cause : String) :
    (attempt < MAX_RETRIES →
      (fromResponse s b st hd gid).retriable = true →
      (requestGo gid h attempt (.httpErr s b st hd :: rest)).sleeps
        = (if (fromResponse s b st hd gid).retryAfterMs ≠ 0
            then (fromResponse s b st hd gid).retryAfterMs
            else min (BACKOFF_BASE_MS * 2 ^ attempt) 10000)
          :: (requestGo gid h (attempt + 1) rest).sleeps)
    ∧ (attempt < MAX_RETRIES →
      (requestGo gid h attempt (.connFail cause :: rest)).sleeps
        = min (BACKOFF_BASE_MS * 2 ^ attempt) 10000
          :: (requestGo gid h (attempt + 1) rest).sleeps) := by
  constructor
  · intro ha hret
    simp [requestGo, hret, ha, backoff]
  · intro ha
    simp [requestGo, ha, backoff]

/-- C8 witness: a retriable 503 with no retry-after header at attempt 0
sleeps its default 5000 ms retryAfter. -/
theorem c8_retry_sleep_witness :
    (requestGo none ⟨none, none, none⟩ 0
        [.httpErr 503 none "Service Unavailable" RetryHeader.absent]).sleeps = [5000] := by
  have h :=
    (c8_retry_sleep_is_retryAfter_else_backoff none ⟨none, none, none⟩ 0 503 none
      "Service Unavailable" RetryHeader.absent [] "unused").1 (by decide) rfl
  simpa using h

/-- Every status poll the waitForMatch loop issues happens strictly
before the deadline. -/
theorem waitForMatchGo_pollTimes_lt (deadline pollMs : Nat) :
    ∀ (obs : List (StatusView × Nat)) (now t : Nat),
      t ∈ (waitForMatchGo deadline pollMs now obs).pollTimes → t < deadline := by
  intro obs
  induction obs with
  | nil =>
    intro now t ht
    by_cases h : now < deadline <;> simp [waitForMatchGo, h] at ht
  | cons p rest ih =>
    intro now t ht
    obtain ⟨r, dt⟩ := p
    by_cases h : now < deadline
    · by_cases h1 : jsStrEq r.status "active" = true ∧ 0 < r.activeGames.length
      · simp [waitForMatchGo, h, h1] at ht
        omega
      · by_cases h2 : jsStrEq r.status "idle" = true
        · simp [waitForMatchGo, h, h1, h2] at ht
          omega
        · by_cases h3 : jsStrEq r.status "paused" = true
          · simp [waitForMatchGo, h, h1, h2, h3] at ht
            omega
          · simp [waitForMatchGo, h, h1, h2, h3] at ht
            rcases ht with ht | ht
            · omega
            · exact ih (now + dt + pollMs) t ht
    · simp [waitForMatchGo, h] at ht

/-- A status value that strictly equals one string literal does not
strictly equal a different one. -/
theorem jsStrEq_ne_of_eq {v : Jval} {s t : String} (hv : jsStrEq v s = true) (hst : s ≠ t) :
    jsStrEq v t = false := by
  cases v <;> simp [jsStrEq] at hv ⊢
  subst hv
  exact hst

/-- C6: waitForMatch checks the wall-clock deadline before every poll
iteration, so every issued poll happens strictly before now + timeout,
and once the deadline has elapsed it raises non-retriable MATCH_TIMEOUT
without another poll; a status of idle raises non-retriable
QUEUE_CANCELLED; a status of paused raises the retriable paused error;
and a status of active with a non-empty active-games list returns the
first entry's game id. -/
theorem c6_waitForMatch_deadline_and_outcomes :
    (∀ (timeoutMs pollMs now : Nat) (obs : List (StatusView × Nat)) (t : Nat),
        t ∈ (waitForMatch timeoutMs pollMs now obs).pollTimes → t < now + timeoutMs)
    ∧ (∀ (deadline pollMs now : Nat) (obs : List (StatusView × Nat)),
        deadline ≤ now →
        waitForMatchGo deadline pollMs now obs
          = { outcome := .failed matchTimeoutError, pollTimes := [] }
        ∧ matchTimeoutError.retriable = false
        ∧ matchTimeoutError.code = "MATCH_TIMEOUT")
    ∧ (∀ (deadline pollMs now dt : Nat) (r : StatusView) (rest : List (StatusView × Nat)),
        now < deadline → jsStrEq r.status "idle" = true →
        (waitForMatchGo deadline pollMs now ((r, dt) :: rest)).outcome
          = .failed queueCancelledError
        ∧ queueCancelledError.retriable = false)
    ∧ (∀ (deadline pollMs now dt : Nat) (r : StatusView) (rest : List (StatusView × Nat)),
        now < deadline → jsStrEq r.status "paused" = true →
        (waitForMatchGo deadline pollMs now ((r, dt) :: rest)).outcome
          = .failed (pausedErrorDefault
              (strOr r.message
                "Platform is paused for emergency maintenance — retry after the pause lifts"))
        ∧ ∀ msg, (pausedErrorDefault msg).retriable = true)
    ∧ (∀ (deadline pollMs now dt : Nat) (r : StatusView) (g : Jval) (gs : List Jval)
          (rest : List (StatusView × Nat)),
        now < deadline → jsStrEq r.status "active" = true → r.activeGames = g :: gs →
        (waitForMatchGo deadline pollMs now ((r, dt) :: rest)).outcome
          = .matched (jGet g "game_id")) := by
  refine ⟨?_, ?_, ?_, ?_, ?_⟩
  · intro timeoutMs pollMs now obs t ht
    exact waitForMatchGo_pollTimes_lt (now + timeoutMs) pollMs obs now t ht
  · intro deadline pollMs now obs hd
    have h : ¬ now < deadline := by omega
    cases obs with
    | nil => exact ⟨by simp [waitForMatchGo, h], rfl, rfl⟩
    | cons p rest =>
      obtain ⟨r, dt⟩ := p
      exact ⟨by simp [waitForMatchGo, h], rfl, rfl⟩
  · intro deadline pollMs now dt r rest hlt hidle
    have hact : jsStrEq r.status "active" = false :=
      jsStrEq_ne_of_eq hidle (by decide)
    refine ⟨?_, rfl⟩
    simp [waitForMatchGo, hlt, hact, hidle]
  · intro deadline pollMs now dt r rest hlt hp
    have hact : jsStrEq r.status "active" = false :=
      jsStrEq_ne_of_eq hp (by decide)
    have hidle : jsStrEq r.status "idle" = false :=
      jsStrEq_ne_of_eq hp (by decide)
    refine ⟨?_, fun msg => rfl⟩
    simp [waitForMatchGo, hlt, hact, hidle, hp]
  · intro deadline pollMs now dt r g gs rest hlt hact hg
    simp [waitForMatchGo, hlt, hact, hg]

/-- C6 witness: the theorem applied at concrete inputs — an elapsed
deadline, an idle status, a paused status and an active status with one
active game. -/
theorem c6_waitForMatch_witness :
    waitForMatchGo 100 10 100 [] = { outcome := .failed matchTimeoutError, pollTimes := [] }
    ∧ (waitForMatchGo 5000 10 0 [(⟨.str "idle", [], .null⟩, 5)]).outcome
      = .failed queueCancelledError
    ∧ (waitForMatchGo 5000 10 0 [(⟨.str "paused", [], .null⟩, 5)]).outcome
      = .failed (pausedErrorDefault
          "Platform is paused for emergency maintenance — retry after the pause lifts")
    ∧ (waitForMatchGo 5000 10 0
        [(⟨.str "active", [.obj [("game_id", .str "g1")]], .null⟩, 5)]).outcome
      = .matched (.str "g1") := by
  refine ⟨?_, ?_, ?_, ?_⟩
  · exact (c6_waitForMatch_deadline_and_outcomes.2.1 100 10 100 [] (by decide)).1
  · exact (c6_waitForMatch_deadline_and_outcomes.2.2.1 5000 10 0 5
      ⟨.str "idle", [], .null⟩ [] (by decide) (by decide)).1
  · have h := (c6_waitForMatch_deadline_and_outcomes.2.2.2.1 5000 10 0 5
      ⟨.str "paused", [], .null⟩ [] (by decide) (by decide)).1
    simpa [strOr, truthy] using h
  · have h := c6_waitForMatch_deadline_and_outcomes.2.2.2.2 5000 10 0 5
      ⟨.str "active", [.obj [("game_id", .str "g1")]], .null⟩
      (.obj [("game_id", .str "g1")]) [] [] (by decide) (by decide) rfl
    simpa [jGet, lookupField] using h

/-- C4: the play loop never propagates a GAME_NOT_FOUND read failure:
any raised error has a different code; and when a read fails with
GAME_NOT_FOUND while the historical result is available, the loop
returns the synthetic finished snapshot whose result field is draw when
the record says draw, and otherwise win or loss by case-insensitive
comparison of the record's winner with the client's own address. -/
theorem c4_playUntilDone_stale_finish :
    (∀ (addr : String) (res : Option GameResultR)
        (handler : NormState → Option (List (String × Jval)))
        (polls : List PollStep) (e : ClabcrawErr),
        (playUntilDone addr res handler polls).outcome = .raised e →
        e.code ≠ "GAME_NOT_FOUND")
    ∧ (∀ (addr : String) (r : GameResultR)
          (handler : NormState → Option (List (String × Jval)))
          (rest : List PollStep) (e : ClabcrawErr),
        e.code = "GAME_NOT_FOUND" →
        (playUntilDone addr (some r) handler (.raise e :: rest)).outcome
          = .synthetic (synthesizeFinal addr (some r))
        ∧ (synthesizeFinal addr (some r)).isFinished = true
        ∧ (r.outcome = some "draw" → (synthesizeFinal addr (some r)).result = "draw")
        ∧ (r.outcome ≠ some "draw" →
            ∀ w, r.winner = some w →
              (synthesizeFinal addr (some r)).result
                = (if lowerStr w = lowerStr addr then "win" else "loss"))
        ∧ (r.outcome ≠ some "draw" → r.winner = none →
            (synthesizeFinal addr (some r)).result = "loss")) := by
  constructor
  · intro addr res handler polls
    induction polls with
    | nil =>
      intro e he
      simp [playUntilDone] at he
    | cons p rest ih =>
      intro e he
      match p with
      | .raise e0 =>
        by_cases h : e0.code = "GAME_NOT_FOUND"
        · simp [playUntilDone, h] at he
        · simp [playUntilDone, h] at he
          rw [← he]
          exact h
      | .state (.unchangedSentinel raw) =>
        simp only [playUntilDone] at he
        exact ih e he
      | .state (.snapshot s) =>
        by_cases hf : s.isFinished = true
        · simp [playUntilDone, hf] at he
        · simp only [playUntilDone, hf, if_neg] at he
          match hh : handler s with
          | some a =>
            rw [hh] at he
            exact ih e he
          | none =>
            rw [hh] at he
            exact ih e he
  · intro addr r handler rest e he
    refine ⟨by simp [playUntilDone, he], rfl, ?_, ?_, ?_⟩
    · intro hdraw
      simp [synthesizeFinal, hdraw]
    · intro hnd w hw
      have hb : (r.outcome == some "draw") = false := by
        simpa using hnd
      simp only [synthesizeFinal, hw, hb, Bool.false_eq_true, if_false]
      by_cases hcmp : lowerStr w = lowerStr addr
      · simp [hcmp]
      · simp [hcmp]
    · intro hnd hw
      have hb : (r.outcome == some "draw") = false := by
        simpa using hnd
      simp [synthesizeFinal, hw, hb]

/-- C4 witness: a read that fails with GAME_NOT_FOUND followed by a
historical record reporting the caller (in different address casing) as
winner yields a synthetic snapshot with result win, and the loop outcome
is that snapshot, not a raised error. -/
theorem c4_playUntilDone_witness :
    (playUntilDone "0xabc"
        (some { winner := some "0xABC", outcome := some "knockout"
              , winner_stack := some (.num 9000), loser_stack := some (.num 0) })
        (fun _ => none) [.raise (gameNotFoundError "g1")]).outcome
      = .synthetic (synthesizeFinal "0xabc"
          (some { winner := some "0xABC", outcome := some "knockout"
                , winner_stack := some (.num 9000), loser_stack := some (.num 0) }))
    ∧ (synthesizeFinal "0xabc"
        (some { winner := some "0xABC", outcome := some "knockout"
              , winner_stack := some (.num 9000), loser_stack := some (.num 0) })).result
      = "win" := by
  have h := c4_playUntilDone_stale_finish.2 "0xabc"
    { winner := some "0xABC", outcome := some "knockout"
    , winner_stack := some (.num 9000), loser_stack := some (.num 0) }
    (fun _ => none) [] (gameNotFoundError "g1") rfl
  refine ⟨h.1, ?_⟩
  have hw := h.2.2.2.1 (by decide) "0xABC" rfl
  rw [hw, if_pos (by decide)]

/-- Sorting a payload with pairwise-distinct keys is invariant under
permutation of the input entries. -/
theorem sortEntries_eq_of_perm (p q : List (String × Jval)) (hperm : p.Perm q)
    (hnd : (p.map Prod.fst).Nodup) : sortEntries p = sortEntries q := by
  have hndq : (q.map Prod.fst).Nodup := (hperm.map Prod.fst).nodup hnd
  have hchain : (sortEntries p).Perm (sortEntries q) :=
    ((List.perm_insertionSort entryLe p).trans hperm).trans
      (List.perm_insertionSort entryLe q).symm
  have hsp : List.Pairwise entryLe (sortEntries p) :=
    List.sorted_insertionSort entryLe p
  have hsq : List.Pairwise entryLe (sortEntries q) :=
    List.sorted_insertionSort entryLe q
  have hnsp : ((sortEntries p).map Prod.fst).Nodup :=
    (((List.perm_insertionSort entryLe p).map Prod.fst).symm).nodup hnd
  have hnsq : ((sortEntries q).map Prod.fst).Nodup :=
    (((List.perm_insertionSort entryLe q).map Prod.fst).symm).nodup hndq
  have hkp : List.Pairwise (fun a b : String × Jval => a.1 ≠ b.1) (sortEntries p) :=
    List.pairwise_map.mp hnsp
  have hkq : List.Pairwise (fun a b : String × Jval => a.1 ≠ b.1) (sortEntries q) :=
    List.pairwise_map.mp hnsq
  haveI : IsAntisymm (String × Jval) (fun a b => entryLe a b ∧ a.1 ≠ b.1) :=
    ⟨fun a b hab hba => absurd (keyLe_antisymm a.1 b.1 hab.1 hba.1) hab.2⟩
  exact List.eq_of_perm_of_sorted hchain (hsp.and hkp) (hsq.and hkq)

/-- C9: two payloads that are equal as key-value maps but differ in
entry order (a permutation with pairwise-distinct keys) canonicalize to
the same string, hence sign to the same signature for the same resource
id, timestamp and key material: the key sort makes the signed message
invariant under key permutation. -/
theorem c9_canonicalize_invariant_under_key_permutation
    (p q : List (String × Jval)) (hperm : p.Perm q)
    (hnd : (p.map Prod.fst).Nodup)
    (signMessage : String → String) (gameId timestamp : String) :
    canonicalize p = canonicalize q
    ∧ signAction signMessage gameId p timestamp
      = signAction signMessage gameId q timestamp := by
  have hs : sortEntries p = sortEntries q := sortEntries_eq_of_perm p q hperm hnd
  constructor
  · unfold canonicalize
    rw [hs]
  · unfold signAction buildMessage canonicalize
    rw [hs]

/-- C9 witness: the concrete payloads of the claim, b then a versus a
then b, canonicalize and sign identically. -/
theorem c9_canonicalize_witness :
    canonicalize [("b", .num 1), ("a", .num 2)]
      = canonicalize [("a", .num 2), ("b", .num 1)]
    ∧ signAction (fun m => "sig:" ++ m) "game-1" [("b", .num 1), ("a", .num 2)] "1700000000"
      = signAction (fun m => "sig:" ++ m) "game-1" [("a", .num 2), ("b", .num 1)] "1700000000" := by
  have hperm : ([("b", Jval.num 1), ("a", Jval.num 2)]).Perm
      [("a", Jval.num 2), ("b", Jval.num 1)] :=
    List.Perm.swap ("a", Jval.num 2) ("b", Jval.num 1) []
  have hnd : (([("b", Jval.num 1), ("a", Jval.num 2)]).map Prod.fst).Nodup := by
    decide
  exact c9_canonicalize_invariant_under_key_permutation _ _ hperm hnd
    (fun m => "sig:" ++ m) "game-1" "1700000000"

/-- Whether a value is a JSON array. -/
def isArr : Jval → Bool
  | .arr _ => true
  | _ => false

/-- Whether a value is a plain JSON object. -/
def isObjV : Jval → Bool
  | .obj _ => true
  | _ => false

/-- Card-field mapping succeeds exactly on falsy values and arrays. -/
theorem jsMapCards_ok_of_shaped (n : String) (v : Jval)
    (hv : truthy v = false ∨ isArr v = true) :
    ∃ l, jsMapCards n v = .ok l := by
  cases v with
  | arr xs => exact ⟨xs.map parseCard, rfl⟩
  | null => exact ⟨[], rfl⟩
  | bool b =>
    rcases hv with h | h
    · exact ⟨[], by simp [jsMapCards, h]⟩
    · simp [isArr] at h
  | num m =>
    rcases hv with h | h
    · exact ⟨[], by simp [jsMapCards, h]⟩
    · simp [isArr] at h
  | str s =>
    rcases hv with h | h
    · exact ⟨[], by simp [jsMapCards, h]⟩
    · simp [isArr] at h
  | obj fs =>
    rcases hv with h | h
    · simp [truthy] at h
    · simp [isArr] at h

/-- Action normalization succeeds exactly on falsy values, arrays and
objects. -/
theorem normalizeActions_ok_of_shaped (v : Jval)
    (hv : truthy v = false ∨ isArr v = true ∨ isObjV v = true) :
    ∃ acts, normalizeActions v = .ok acts := by
  cases v with
  | obj fs => exact ⟨_, rfl⟩
  | arr xs => exact ⟨_, rfl⟩
  | null => exact ⟨_, rfl⟩
  | bool b =>
    rcases hv with h | h | h
    · exact ⟨allActionNames.map (fun name => (name, Jval.obj [("available", .bool false)])),
        by simp [normalizeActions, h]⟩
    · simp [isArr] at h
    · simp [isObjV] at h
  | num m =>
    rcases hv with h | h | h
    · exact ⟨allActionNames.map (fun name => (name, Jval.obj [("available", .bool false)])),
        by simp [normalizeActions, h]⟩
    · simp [isArr] at h
    · simp [isObjV] at h
  | str s =>
    rcases hv with h | h | h
    · exact ⟨allActionNames.map (fun name => (name, Jval.obj [("available", .bool false)])),
        by simp [normalizeActions, h]⟩
    · simp [isArr] at h
    · simp [isObjV] at h

/-- C10 counterexample: the claim says normalizeState is total on
arbitrary input and never throws.  On the object whose your_cards field
is the number 1 — a truthy value without a map method — the source
evaluates (1).map(parseCard) and throws a TypeError, modelled here as
the error result. -/
theorem c10_counterexample_normalizeState_throws :
    normalizeState (fun _ => 0) 0 (Jval.obj [("your_cards", Jval.num 1)])
      = .error "TypeError: your_cards.map is not a function" := rfl

/-- C10 amended: normalizeState returns the unchanged sentinel on falsy
or non-object input and on any object with a truthy unchanged flag; on
every other object whose card-list fields are absent, falsy or arrays
and whose valid_actions is absent, falsy, an array or an object, it
returns a snapshot with unchanged = false, isFinished exactly when
game_status is the string finished or complete, and pot, your_stack and
opponent_stack defaulting to 0 when absent.  Totality fails only on the
TypeError inputs of the counterexample, which the amended domain
excludes. -/
theorem c10_normalizeState_shape
    (dateMs : Jval → Int) (nowMs : Int) (raw : Jval) :
    (truthy raw = false ∨ isJsObject raw = false →
      normalizeState dateMs nowMs raw = .ok (.unchangedSentinel raw))
    ∧ (truthy raw = true → isJsObject raw = true →
      truthy (jGet raw "unchanged") = true →
      normalizeState dateMs nowMs raw = .ok (.unchangedSentinel raw))
    ∧ (truthy raw = true → isJsObject raw = true →
      truthy (jGet raw "unchanged") = false →
      (truthy (jGet raw "your_cards") = false ∨ isArr (jGet raw "your_cards") = true) →
      (truthy (jGet raw "community_cards") = false
        ∨ isArr (jGet raw "community_cards") = true) →
      (truthy (jGet raw "opponent_cards") = false
        ∨ isArr (jGet raw "opponent_cards") = true) →
      (truthy (jGet raw "valid_actions") = false ∨ isArr (jGet raw "valid_actions") = true
        ∨ isObjV (jGet raw "valid_actions") = true) →
      ∃ s, normalizeState dateMs nowMs raw = .ok (.snapshot s)
        ∧ s.unchanged = false
        ∧ s.isFinished
            = (jsStrEq (jGet raw "game_status") "finished"
              || jsStrEq (jGet raw "game_status") "complete")
        ∧ (jGet raw "pot" = .null → s.pot = .num 0)
        ∧ (jGet raw "your_stack" = .null → s.yourStack = .num 0)
        ∧ (jGet raw "opponent_stack" = .null → s.opponentStack = .num 0)) := by
  refine ⟨?_, ?_, ?_⟩
  · intro h
    rcases h with h | h <;>
      simp [normalizeState, h]
  · intro h1 h2 hu
    simp [normalizeState, h1, h2, hu]
  · intro h1 h2 hu hyc hcc hoc hva
    obtain ⟨l1, hl1⟩ := jsMapCards_ok_of_shaped "your_cards" _ hyc
    obtain ⟨l2, hl2⟩ := jsMapCards_ok_of_shaped "community_cards" _ hcc
    obtain ⟨acts, hacts⟩ := normalizeActions_ok_of_shaped _ hva
    have hop : ∃ oc, jsOptCards (jGet raw "opponent_cards") = .ok oc := by
      by_cases ht : truthy (jGet raw "opponent_cards") = true
      · obtain ⟨l3, hl3⟩ := jsMapCards_ok_of_shaped "opponent_cards" _ hoc
        exact ⟨some l3, by simp [jsOptCards, ht, hl3, Except.map]⟩
      · exact ⟨none, by simp [jsOptCards, ht]⟩
    obtain ⟨oc, hocv⟩ := hop
    have heq : normalizeState dateMs nowMs raw
        = .ok (.snapshot
          { gameId := jsOr (jGet raw "game_id") .null
          , handNumber := jsOr (jGet raw "hand_number") (.num 1)
          , isYourTurn := jsIsTrue (jGet raw "is_your_turn")
          , isFinished :=
              jsStrEq (jGet raw "game_status") "finished"
                || jsStrEq (jGet raw "game_status") "complete"
          , unchanged := false
          , street := jsOr (jGet raw "current_street") (.str "preflop")
          , hole := l1
          , board := l2
          , pot := jsOr (jGet raw "pot") (.num 0)
          , yourStack := jsOr (jGet raw "your_stack") (.num 0)
          , opponentStack := jsOr (jGet raw "opponent_stack") (.num 0)
          , moveDeadlineMs :=
              if truthy (jGet raw "move_deadline") = true then
                some (dateMs (jGet raw "move_deadline") - nowMs)
              else none
          , actions := acts
          , effectiveStack :=
              jsMathMin (jsOr (jGet raw "your_stack") (.num 0))
                (jsOr (jGet raw "opponent_stack") (.num 0))
          , result := jsOr (jGet raw "result") .null
          , outcome := jsOr (jGet raw "outcome") .null
          , opponentCards := oc
          , winningHand := jsOr (jGet raw "winning_hand") .null
          , raw := raw }) := by
      unfold normalizeState
      rw [if_neg (by simp [h1, h2]), if_neg (by simp [hu]), hl1, hl2, hacts, hocv]
      rfl
    refine ⟨_, heq, rfl, rfl, ?_, ?_, ?_⟩
    · intro hp
      simp [jsOr, hp, truthy]
    · intro hp
      simp [jsOr, hp, truthy]
    · intro hp
      simp [jsOr, hp, truthy]

/-- C10 witness: the theorem applied to a primitive input (sentinel
branch) and to a finished game object with no stack fields (snapshot
branch with defaults). -/
theorem c10_normalizeState_witness :
    normalizeState (fun _ => 0) 0 (Jval.num 5) = .ok (.unchangedSentinel (Jval.num 5))
    ∧ ∃ s, normalizeState (fun _ => 0) 0 (Jval.obj [("game_status", Jval.str "finished")])
        = .ok (.snapshot s)
      ∧ s.unchanged = false ∧ s.isFinished = true ∧ s.pot = .num 0 := by
  constructor
  · exact (c10_normalizeState_shape (fun _ => 0) 0 (Jval.num 5)).1 (Or.inr rfl)
  · obtain ⟨s, hs, hu, hf, hp, _, _⟩ :=
      (c10_normalizeState_shape (fun _ => 0) 0
        (Jval.obj [("game_status", Jval.str "finished")])).2.2
        rfl rfl rfl (Or.inl rfl) (Or.inl rfl) (Or.inl rfl) (Or.inl rfl)
    refine ⟨s, hs, hu, ?_, hp rfl⟩
    rw [hf]
    decide

end Clabcraw
